import Mathlib

/-!
Verification of the resilience middleware and caching stack of a FastAPI
demo service (`app/middleware/resilience.py`, `app/services/cache.py`).

The Python code is shallowly embedded: every stateful operation becomes a
pure Lean function from an explicit state to a result paired with the new
state.  Python `dict`s become association lists over `String` keys,
`collections.deque`s become Lean lists (front of the list = left end of the
deque), and wall-clock instants (`time.time()` floats, `datetime` values)
become rationals.  Python's `int(x)` truncation on floats is modelled by
`pyInt`, and float truthiness (where `0.0` is falsy) is modelled explicitly
where the source relies on it.
-/

/-! ### Association-list model of Python `dict` with string keys -/

/-- First-match lookup, mirroring `d.get(k)` / `d[k]` on a Python dict. -/
def lookupS {α : Type} : List (String × α) → String → Option α
  | [], _ => none
  | (k, v) :: rest, key => if k = key then some v else lookupS rest key

/-- `d[k] = v`: replace the first binding of `key`, or append a new one. -/
def setEntry {α : Type} : List (String × α) → String → α → List (String × α)
  | [], key, v => [(key, v)]
  | (k, w) :: rest, key, v =>
      if k = key then (key, v) :: rest else (k, w) :: setEntry rest key v

/-- `del d[k]`: remove every binding of `key`. -/
def eraseKey {α : Type} : List (String × α) → String → List (String × α)
  | [], _ => []
  | (k, w) :: rest, key =>
      if k = key then eraseKey rest key else (k, w) :: eraseKey rest key

/-! ### Python `int()` truncation on a rational -/

/-- Python `int(x)` for a float `x`: truncation toward zero. -/
def pyInt (q : ℚ) : ℤ := if 0 ≤ q then ⌊q⌋ else ⌈q⌉

/-- Python `s.startswith(p)`, as a test on the character sequences of the
two strings. -/
def strStartsWith (s p : String) : Bool := p.data.isPrefixOf s.data

/-! ### Circuit breaker (`CircuitBreaker`, app/middleware/resilience.py) -/

/-- The breaker's state string: `"CLOSED"`, `"OPEN"`, `"HALF_OPEN"`. -/
inductive CBState where
  | CLOSED
  | OPEN
  | HALF_OPEN
deriving DecidableEq, Repr

/-- The mutable attributes of a `CircuitBreaker` object, plus its two
construction parameters.  `expected_exception` is not a field here: whether a
raised exception is an instance of it is passed as a boolean to `aexit`.
Wall-clock instants (`time.time()` floats) are rationals. -/
structure CircuitBreaker where
  failure_threshold : ℕ
  timeout : ℚ
  failure_count : ℕ
  last_failure_time : Option ℚ
  state : CBState
deriving DecidableEq, Repr

/-- A service-unavailable rejection (`HTTPException(status_code=503, ...)`). -/
structure HTTPError where
  status_code : ℕ
deriving DecidableEq, Repr

namespace CircuitBreaker

/-- `CircuitBreaker.__init__`. -/
def init (failure_threshold : ℕ) (timeout : ℚ) : CircuitBreaker :=
  { failure_threshold := failure_threshold, timeout := timeout,
    failure_count := 0, last_failure_time := none, state := .CLOSED }

/-- `CircuitBreaker.__aenter__` at wall-clock time `now`.  An `.error` result
models the raised 503 `HTTPException` (so the guarded body never runs); an
`.ok` result is the breaker state in effect while the body runs.  The Python
guard `self.last_failure_time and ...` is falsy when the stored float is
`None` or `0.0`, hence the explicit `t ≠ 0` conjunct. -/
def aenter (cb : CircuitBreaker) (now : ℚ) : Except HTTPError CircuitBreaker :=
  if cb.state = .OPEN then
    match cb.last_failure_time with
    | some t =>
        if t ≠ 0 ∧ cb.timeout ≤ now - t then
          .ok { cb with state := .HALF_OPEN }
        else
          .error { status_code := 503 }
    | none => .error { status_code := 503 }
  else
    .ok cb

/-- `CircuitBreaker.__aexit__` at wall-clock time `now`.  `exc = none` models
a normal exit of the guarded body; `exc = some b` models the body raising,
with `b` true iff the exception is an instance of `expected_exception`.  The
boolean component is the value `__aexit__` returns: `true` would suppress the
exception, `false` lets it propagate. -/
def aexit (cb : CircuitBreaker) (now : ℚ) (exc : Option Bool) :
    CircuitBreaker × Bool :=
  match exc with
  | none =>
      if cb.state = .HALF_OPEN then
        ({ cb with state := .CLOSED, failure_count := 0 }, false)
      else
        (cb, false)
  | some is_expected =>
      if is_expected then
        let cb' : CircuitBreaker :=
          { cb with failure_count := cb.failure_count + 1,
                    last_failure_time := some now }
        if cb'.failure_threshold ≤ cb'.failure_count then
          ({ cb' with state := .OPEN }, false)
        else
          (cb', false)
      else
        (cb, false)

/-- `n` consecutive classified failures recorded through `__aexit__`, the
`k`-th at time `ts k`. -/
def iterFail (ts : ℕ → ℚ) : ℕ → CircuitBreaker → CircuitBreaker
  | 0, cb => cb
  | n + 1, cb => iterFail ts n (aexit cb (ts n) (some true)).1

/-- Breaker states reachable from a freshly constructed breaker by entering
the guard and recording outcomes.  Outcome times are positive, as every
`time.time()` value is. -/
inductive Reach (th : ℕ) (tmo : ℚ) : CircuitBreaker → Prop where
  | init : Reach th tmo (init th tmo)
  | enter (cb cb' : CircuitBreaker) (now : ℚ) :
      Reach th tmo cb → aenter cb now = .ok cb' → Reach th tmo cb'
  | exit (cb : CircuitBreaker) (now : ℚ) (exc : Option Bool) :
      Reach th tmo cb → 0 < now → Reach th tmo (aexit cb now exc).1

/-- Invariant of reachable breakers: the threshold is the constructor
argument, and in the OPEN and HALF_OPEN states the failure count has reached
the threshold and a positive failure time is recorded. -/
def Inv (th : ℕ) (cb : CircuitBreaker) : Prop :=
  cb.failure_threshold = th ∧
  ((cb.state = .OPEN ∨ cb.state = .HALF_OPEN) →
    th ≤ cb.failure_count ∧ ∃ t, cb.last_failure_time = some t ∧ 0 < t)



end CircuitBreaker

/-! ### Rate limiting middleware (`RateLimitMiddleware`, app/middleware/resilience.py) -/

/-- The configuration fields of `Settings` that the rate limiter reads
(app/core/config.py).  Window lengths take part in float arithmetic and are
modelled as rationals. -/
structure Settings where
  RATE_LIMIT_ENABLED : Bool
  RATE_LIMIT_REQUESTS : ℕ
  RATE_LIMIT_WINDOW_SECONDS : ℚ
  AUTH_RATE_LIMIT_REQUESTS : ℕ
  AUTH_RATE_LIMIT_WINDOW_SECONDS : ℚ
  UPLOAD_RATE_LIMIT_REQUESTS : ℕ
  UPLOAD_RATE_LIMIT_WINDOW_SECONDS : ℚ
deriving DecidableEq, Repr

/-- `self.client_requests`: one deque of request timestamps per client IP
(front of the list = left end of the deque = oldest timestamp). -/
abbrev RLState : Type := List (String × List ℚ)

/-- What `RateLimitMiddleware.dispatch` produces for one request:
either the downstream response, tagged with the headers the middleware adds
to it, or the 429 `JSONResponse` with its `retry_after_seconds` body field
and its headers. -/
inductive RLDecision where
  | admitted (headers : List (String × String))
  | rejected (status_code : ℕ) (retry_after_seconds : ℤ)
      (headers : List (String × String))
deriving DecidableEq, Repr

/-- The headers attached to either kind of response. -/
def RLDecision.headers : RLDecision → List (String × String)
  | .admitted hs => hs
  | .rejected _ _ hs => hs

namespace RateLimitMiddleware

/-- `RateLimitMiddleware._get_limit_for_endpoint`: `(max_requests,
window_seconds)` for a request path, auth prefix checked before upload. -/
def get_limit_for_endpoint (st : Settings) (path : String) : ℕ × ℚ :=
  if strStartsWith path "/api/v1/security" then
    (st.AUTH_RATE_LIMIT_REQUESTS, st.AUTH_RATE_LIMIT_WINDOW_SECONDS)
  else if strStartsWith path "/api/v1/files" then
    (st.UPLOAD_RATE_LIMIT_REQUESTS, st.UPLOAD_RATE_LIMIT_WINDOW_SECONDS)
  else
    (st.RATE_LIMIT_REQUESTS, st.RATE_LIMIT_WINDOW_SECONDS)

/-- The purge loop `while client_queue and client_queue[0] < now -
window_seconds: client_queue.popleft()`. -/
def purgeWindow (window_seconds now : ℚ) (q : List ℚ) : List ℚ :=
  q.dropWhile (fun t => t < now - window_seconds)

/-- The per-queue body of `RateLimitMiddleware.dispatch` once the client's
deque has been fetched: purge, threshold check, and either the 429 response
or admission with the three rate-limit headers.  `headD 0` stands for the
subscript `client_queue[0]`, which Python only evaluates when the queue is
nonempty (always the case on the rejection path when `1 ≤ max_requests`).
The second component is the deque written back for this client: the purge
mutates the stored deque in place, so it is written back on both paths. -/
def handle_queue (st : Settings) (path : String) (now : ℚ) (q0 : List ℚ) :
    RLDecision × List ℚ :=
  let lim := get_limit_for_endpoint st path
  let max_requests := lim.1
  let window_seconds := lim.2
  let client_queue := purgeWindow window_seconds now q0
  if max_requests ≤ client_queue.length then
    let oldest_request := client_queue.headD 0
    let retry_after := pyInt (oldest_request + window_seconds - now) + 1
    (.rejected 429 retry_after [("Retry-After", toString retry_after)],
      client_queue)
  else
    let new_queue := client_queue ++ [now]
    (.admitted
      [("X-RateLimit-Limit", toString max_requests),
       ("X-RateLimit-Remaining",
         toString (max 0 ((max_requests : ℤ) - new_queue.length))),
       ("X-RateLimit-Reset", toString (pyInt (now + window_seconds)))],
      new_queue)

/-- `RateLimitMiddleware.dispatch` for one request from `client_ip` to
`path` at wall-clock time `now`.  When rate limiting is disabled the
downstream response is returned untouched; otherwise the client's deque
(created empty on first sight) is processed by `handle_queue` and written
back. -/
def dispatch (st : Settings) (s : RLState) (client_ip path : String)
    (now : ℚ) : RLDecision × RLState :=
  if st.RATE_LIMIT_ENABLED = false then
    (.admitted [], s)
  else
    let r := handle_queue st path now ((lookupS s client_ip).getD [])
    (r.1, setEntry s client_ip r.2)

end RateLimitMiddleware

/-! ### TTL cache (`CacheService`, app/services/cache.py) -/

/-- A cache entry (`CacheEntry` dataclass).  `datetime` instants are
rationals. -/
structure CacheEntry (α : Type) where
  value : α
  expires_at : ℚ
  created_at : ℚ
  hits : ℕ
deriving DecidableEq

namespace CacheEntry

/-- `CacheEntry.is_expired` at wall-clock time `now`:
`datetime.utcnow() > self.expires_at`. -/
def is_expired {α : Type} (e : CacheEntry α) (now : ℚ) : Bool :=
  now > e.expires_at

end CacheEntry

/-- The state of a `CacheService` object: the `_cache` dict and the
`_stats` counters. -/
structure CacheState (α : Type) where
  cache : List (String × CacheEntry α)
  hits : ℕ
  misses : ℕ
  sets : ℕ
  deletes : ℕ
  evictions : ℕ
deriving DecidableEq

namespace CacheService

/-- `CacheService.__init__`: empty dict, zeroed stats. -/
def initState (α : Type) : CacheState α :=
  { cache := [], hits := 0, misses := 0, sets := 0, deletes := 0,
    evictions := 0 }

/-- `CacheService.get` at wall-clock time `now`.  Incrementing the hits of
the entry object in place is modelled by writing the updated entry back
under the same key. -/
def get {α : Type} (s : CacheState α) (key : String) (now : ℚ) :
    Option α × CacheState α :=
  match lookupS s.cache key with
  | none => (none, { s with misses := s.misses + 1 })
  | some entry =>
      if entry.is_expired now then
        (none,
         { s with cache := eraseKey s.cache key,
                  misses := s.misses + 1,
                  evictions := s.evictions + 1 })
      else
        (some entry.value,
         { s with
             cache := setEntry s.cache key { entry with hits := entry.hits + 1 },
             hits := s.hits + 1 })

/-- `CacheService.set` at wall-clock time `now`. -/
def set {α : Type} (s : CacheState α) (key : String) (value : α)
    (ttl : ℚ) (now : ℚ) : CacheState α :=
  { s with
      cache := setEntry s.cache key
        { value := value, expires_at := now + ttl, created_at := now,
          hits := 0 },
      sets := s.sets + 1 }

/-- `CacheService.delete`. -/
def delete {α : Type} (s : CacheState α) (key : String) :
    Bool × CacheState α :=
  if (lookupS s.cache key).isSome then
    (true, { s with cache := eraseKey s.cache key, deletes := s.deletes + 1 })
  else
    (false, s)

/-- `CacheService.exists`: the returned flag paired with the state after the
call.  The method body only reads (`if entry and not entry.is_expired()`), so
the state passes through; a dataclass instance is always truthy, so the
`entry and` guard is exactly the `none`/`some` split. -/
def exists_key {α : Type} (s : CacheState α) (key : String) (now : ℚ) :
    Bool × CacheState α :=
  match lookupS s.cache key with
  | some entry => (!(entry.is_expired now), s)
  | none => (false, s)

/-- `CacheService.get_keys_by_pattern`: every key of the dict whose name
starts with `pattern`, in dict order, with no expiry check. -/
def get_keys_by_pattern {α : Type} (s : CacheState α) (pattern : String) :
    List String :=
  (s.cache.map Prod.fst).filter (fun key => strStartsWith key pattern)

/-- The specification's reading of `keysByPrefix` (spec §4.1): only keys of
entries that are **not expired** at time `now`.  Stated from the spec's
words, for comparison with `get_keys_by_pattern` above. -/
def keysByPatternSpec {α : Type} (s : CacheState α) (pattern : String)
    (now : ℚ) : List String :=
  (s.cache.filter
    (fun kv => strStartsWith kv.1 pattern && !(kv.2.is_expired now))).map Prod.fst

end CacheService

/-! ### Metrics middleware (`MetricsMiddleware`, app/middleware/resilience.py) -/

/-- `deque(maxlen=cap).append(x)`: when the deque is full the leftmost
(oldest) element is discarded to make room. -/
def dequeAppend (cap : ℕ) (l : List ℚ) (x : ℚ) : List ℚ :=
  if cap ≤ l.length then l.drop (l.length + 1 - cap) ++ [x] else l ++ [x]

/-- The metrics fields the response-time claims are about:
`self.metrics["total_requests"]`, `"total_errors"` and `"response_times"`
(a `deque(maxlen=1000)`). -/
structure MetricsState where
  total_requests : ℕ
  total_errors : ℕ
  response_times : List ℚ
deriving DecidableEq

namespace MetricsMiddleware

/-- `MetricsMiddleware.__init__`. -/
def init : MetricsState :=
  { total_requests := 0, total_errors := 0, response_times := [] }

/-- The response-time update of `MetricsMiddleware.dispatch` for a completed
request of duration `d`:
`self.metrics["response_times"].append(duration)` on a `deque(maxlen=1000)`. -/
def record_response_time (m : MetricsState) (d : ℚ) : MetricsState :=
  { m with response_times := dequeAppend 1000 m.response_times d }

/-- The `avg_response_time` field computed by
`MetricsMiddleware.get_metrics`: `sum(response_times) / len(response_times)
if response_times else 0.0`. -/
def avg_response_time (m : MetricsState) : ℚ :=
  if m.response_times.isEmpty then 0
  else m.response_times.sum / m.response_times.length

end MetricsMiddleware

/-- The specification's `arithmetic mean of the buffer's contents`, stated
from the spec's words for comparison with `avg_response_time`. -/
def arithMean (l : List ℚ) : ℚ := l.sum / l.length

/-! ### Concrete states and settings used by counterexamples and witnesses -/

/-- Example breaker used to refute claim C2: CLOSED, three failures already
recorded. -/
def c2Breaker : CircuitBreaker :=
  { failure_threshold := 5, timeout := 60, failure_count := 3,
    last_failure_time := some 10, state := CBState.CLOSED }

/-- Example cache used to refute claim C5: a single entry under key
`"user:1"` that expired at time 0. -/
def c5Cache : CacheState ℕ :=
  { cache := [("user:1",
      { value := 7, expires_at := 0, created_at := 0, hits := 0 })],
    hits := 0, misses := 0, sets := 0, deletes := 0, evictions := 0 }

/-- Concrete cache for the C7 witness: `"a"` expired at time 5, `"b"` not. -/
def c7Cache : CacheState ℕ :=
  { cache := [("a", { value := 1, expires_at := 3, created_at := 0, hits := 0 }),
              ("b", { value := 2, expires_at := 9, created_at := 0, hits := 4 })],
    hits := 10, misses := 20, sets := 2, deletes := 0, evictions := 1 }

/-- Settings used by the C1 counterexample: general limit 1 per 100 s, auth
limit 5 per 100 s. -/
def c1Settings : Settings :=
  { RATE_LIMIT_ENABLED := true, RATE_LIMIT_REQUESTS := 1,
    RATE_LIMIT_WINDOW_SECONDS := 100, AUTH_RATE_LIMIT_REQUESTS := 5,
    AUTH_RATE_LIMIT_WINDOW_SECONDS := 100, UPLOAD_RATE_LIMIT_REQUESTS := 10,
    UPLOAD_RATE_LIMIT_WINDOW_SECONDS := 100 }

/-- Settings used by the C4 counterexample: general limit 1 per 100 s. -/
def c4Settings : Settings :=
  { RATE_LIMIT_ENABLED := true, RATE_LIMIT_REQUESTS := 1,
    RATE_LIMIT_WINDOW_SECONDS := 100, AUTH_RATE_LIMIT_REQUESTS := 5,
    AUTH_RATE_LIMIT_WINDOW_SECONDS := 300, UPLOAD_RATE_LIMIT_REQUESTS := 10,
    UPLOAD_RATE_LIMIT_WINDOW_SECONDS := 300 }

/-- Settings used by C6: general limit 1 per 10 s. -/
def c6Settings : Settings :=
  { RATE_LIMIT_ENABLED := true, RATE_LIMIT_REQUESTS := 1,
    RATE_LIMIT_WINDOW_SECONDS := 10, AUTH_RATE_LIMIT_REQUESTS := 5,
    AUTH_RATE_LIMIT_WINDOW_SECONDS := 300, UPLOAD_RATE_LIMIT_REQUESTS := 10,
    UPLOAD_RATE_LIMIT_WINDOW_SECONDS := 300 }

/-! ## Supporting lemmas -/

theorem lookupS_setEntry {α : Type} (d : List (String × α)) (key k' : String) (v : α) :
    lookupS (setEntry d key v) k' = if k' = key then some v else lookupS d k' := by
  induction d with
  | nil =>
    by_cases h : k' = key
    · simp [setEntry, lookupS, h]
    · simp [setEntry, lookupS, h, Ne.symm h]
  | cons kv rest ih =>
    obtain ⟨k, w⟩ := kv
    by_cases hk : k = key
    · subst hk
      by_cases h : k' = k
      · simp [setEntry, lookupS, h]
      · simp [setEntry, lookupS, h, Ne.symm h]
    · by_cases h : k = k'
      · subst h
        have hk' : ¬k = key := hk
        simp [setEntry, lookupS, hk', Ne.symm hk', ih]
      · simp [setEntry, lookupS, hk, h, ih]

theorem lookupS_eraseKey {α : Type} (d : List (String × α)) (key k' : String) :
    lookupS (eraseKey d key) k' = if k' = key then none else lookupS d k' := by
  induction d with
  | nil =>
    by_cases h : k' = key <;> simp [eraseKey, lookupS, h]
  | cons kv rest ih =>
    obtain ⟨k, w⟩ := kv
    by_cases hk : k = key
    · subst hk
      by_cases h : k' = k
      · subst h
        simp [eraseKey, lookupS, ih]
      · simp [eraseKey, lookupS, h, Ne.symm h, ih]
    · by_cases h : k = k'
      · subst h
        have hk' : ¬k = key := hk
        simp [eraseKey, lookupS, hk', Ne.symm hk', ih]
      · simp [eraseKey, lookupS, hk, h, ih]

namespace CircuitBreaker

theorem reach_inv {th : ℕ} {tmo : ℚ} {cb : CircuitBreaker}
    (h : Reach th tmo cb) : Inv th cb := by
  induction h with
  | init =>
      refine ⟨rfl, ?_⟩
      intro hst
      rcases hst with hst | hst <;> simp [CircuitBreaker.init] at hst
  | enter cb cb' now hr hok ih =>
      by_cases hst : cb.state = .OPEN
      · obtain ⟨hcnt, t, hlft, hpos⟩ := ih.2 (Or.inl hst)
        simp only [aenter, if_pos hst, hlft] at hok
        by_cases hc : t ≠ 0 ∧ cb.timeout ≤ now - t
        · rw [if_pos hc] at hok
          injection hok with hok
          subst hok
          exact ⟨ih.1, fun _ => ⟨hcnt, t, rfl, hpos⟩⟩
        · rw [if_neg hc] at hok
          simp at hok
      · simp only [aenter, if_neg hst] at hok
        injection hok with hok
        subst hok
        exact ih
  | exit cb now exc hr hpos ih =>
      match exc with
      | none =>
          by_cases hst : cb.state = .HALF_OPEN
          · simp only [aexit, if_pos hst]
            refine ⟨ih.1, ?_⟩
            intro hs
            rcases hs with hs | hs <;> simp at hs
          · simp only [aexit, if_neg hst]
            exact ih
      | some false =>
          simpa only [aexit, Bool.false_eq_true, if_false] using ih
      | some true =>
          simp only [aexit, if_true]
          by_cases hth : cb.failure_threshold ≤ cb.failure_count + 1
          · simp only [if_pos hth]
            exact ⟨ih.1, fun _ => ⟨ih.1 ▸ hth, now, rfl, hpos⟩⟩
          · simp only [if_neg hth]
            refine ⟨ih.1, ?_⟩
            intro hs
            have hs' : cb.state = CBState.OPEN ∨ cb.state = CBState.HALF_OPEN := by
              simpa using hs
            obtain ⟨hcnt, t, hlft, hpost⟩ := ih.2 hs'
            exact ⟨Nat.le_trans hcnt (Nat.le_succ _), now, rfl, hpos⟩

theorem iterFail_run (ts : ℕ → ℚ) (n : ℕ) (cb : CircuitBreaker)
    (hst : cb.state =
      (if cb.failure_threshold ≤ cb.failure_count then CBState.OPEN
       else CBState.CLOSED)) :
    (iterFail ts n cb).failure_count = cb.failure_count + n ∧
    (iterFail ts n cb).failure_threshold = cb.failure_threshold ∧
    (iterFail ts n cb).state =
      (if cb.failure_threshold ≤ cb.failure_count + n then CBState.OPEN
       else CBState.CLOSED) := by
  induction n generalizing cb with
  | zero => exact ⟨rfl, rfl, hst⟩
  | succ n ih =>
      simp only [iterFail]
      set cb2 := (aexit cb (ts n) (some true)).1 with hcb2
      have hcb2eq : cb2 =
          (if cb.failure_threshold ≤ cb.failure_count + 1 then
            { cb with failure_count := cb.failure_count + 1,
                      last_failure_time := some (ts n), state := CBState.OPEN }
           else
            { cb with failure_count := cb.failure_count + 1,
                      last_failure_time := some (ts n) }) := by
        simp only [hcb2, aexit, if_true]
        by_cases h : cb.failure_threshold ≤ cb.failure_count + 1 <;>
          simp [h]
      have hpre : cb2.state =
          (if cb2.failure_threshold ≤ cb2.failure_count then CBState.OPEN
           else CBState.CLOSED) := by
        rw [hcb2eq]
        by_cases h : cb.failure_threshold ≤ cb.failure_count + 1
        · simp [h]
        · simp only [if_neg h]
          rw [hst, if_neg (fun hc => h (Nat.le_trans hc (Nat.le_succ _)))]
      obtain ⟨h1, h2, h3⟩ := ih cb2 hpre
      have hcnt2 : cb2.failure_count = cb.failure_count + 1 := by
        rw [hcb2eq]
        by_cases h : cb.failure_threshold ≤ cb.failure_count + 1 <;> simp [h]
      have hth2 : cb2.failure_threshold = cb.failure_threshold := by
        rw [hcb2eq]
        by_cases h : cb.failure_threshold ≤ cb.failure_count + 1 <;> simp [h]
      refine ⟨?_, ?_, ?_⟩
      · rw [h1, hcnt2]
        omega
      · rw [h2, hth2]
      · rw [h3, hcnt2, hth2]
        have harith : cb.failure_count + 1 + n = cb.failure_count + (n + 1) := by
          omega
        rw [harith]

end CircuitBreaker

theorem dropWhile_head_false {α : Type} (p : α → Bool) (l : List α) (x : α)
    (xs : List α) (h : l.dropWhile p = x :: xs) : p x = false := by
  induction l with
  | nil => simp [List.dropWhile] at h
  | cons a l ih =>
      rw [List.dropWhile] at h
      cases hp : p a with
      | true =>
          rw [hp] at h
          exact ih h
      | false =>
          rw [hp] at h
          cases h
          exact hp

/-! ## Claim theorems -/

/-- C2 counterexample: with the breaker CLOSED and `failure_count = 3`, a
success leaves `failure_count` at 3 — it is not reset to 0 as the claim
states (only a success in HALF_OPEN resets it). -/
theorem closed_success_count_counterexample :
    c2Breaker.state = CBState.CLOSED ∧
    (CircuitBreaker.aexit c2Breaker 20 none).1.state = CBState.CLOSED ∧
    (CircuitBreaker.aexit c2Breaker 20 none).1.failure_count ≠ 0 := by
  refine ⟨rfl, rfl, ?_⟩
  decide

/-- C2 amended: when the breaker is CLOSED and the guarded operation
succeeds, the breaker stays CLOSED and `failure_count` is left **unchanged**
(so failures interrupted by successes do keep accumulating toward the open
threshold); the whole breaker state is untouched. -/
theorem closed_success_leaves_breaker_unchanged (cb : CircuitBreaker)
    (now : ℚ) (h : cb.state = CBState.CLOSED) :
    CircuitBreaker.aexit cb now none = (cb, false) := by
  simp only [CircuitBreaker.aexit]
  rw [if_neg (by rw [h]; intro hc; cases hc)]

/-- Witness for the C2 amended theorem at a concrete breaker. -/
theorem closed_success_leaves_breaker_unchanged_witness :
    CircuitBreaker.aexit (CircuitBreaker.init 5 60) 7 none
      = (CircuitBreaker.init 5 60, false) :=
  closed_success_leaves_breaker_unchanged (CircuitBreaker.init 5 60) 7 rfl

/-- C10: `__aexit__` returns `False` on every exception path — whether or
not the raised exception matches `expected_exception` — so the original
exception always propagates unchanged to the caller after the breaker
records (or ignores) the outcome. -/
theorem breaker_never_suppresses_exception (cb : CircuitBreaker) (now : ℚ)
    (is_expected : Bool) :
    (CircuitBreaker.aexit cb now (some is_expected)).2 = false := by
  cases is_expected
  · rfl
  · simp only [CircuitBreaker.aexit, if_true]
    split <;> rfl

/-- C9: `exists` returns `true` iff the key is present with a non-expired
entry, and the call leaves the whole cache state — entries, per-entry hit
counters and stats counters — exactly as it was. -/
theorem exists_key_correct {α : Type} (s : CacheState α) (key : String)
    (now : ℚ) :
    ((CacheService.exists_key s key now).1 = true ↔
      ∃ e, lookupS s.cache key = some e ∧ e.is_expired now = false)
    ∧ (CacheService.exists_key s key now).2 = s := by
  constructor
  · cases h : lookupS s.cache key with
    | none => simp [CacheService.exists_key, h]
    | some e => simp [CacheService.exists_key, h]
  · cases h : lookupS s.cache key <;>
      simp [CacheService.exists_key, h]

/-- C5 counterexample: at time 5 the only entry of `c5Cache` is expired, yet
`get_keys_by_pattern` still returns its key; the spec's non-expired-only
reading returns the empty set. -/
theorem keys_by_pattern_counterexample :
    (CacheEntry.is_expired
      { value := 7, expires_at := 0, created_at := 0, hits := 0 } (5 : ℚ))
        = true
    ∧ CacheService.get_keys_by_pattern c5Cache "user:" = ["user:1"]
    ∧ CacheService.keysByPatternSpec c5Cache "user:" 5 = [] := by
  refine ⟨by decide, ?_, ?_⟩ <;> decide

/-- C5 amended: `get_keys_by_pattern` returns exactly the keys physically
present in the map that begin with the pattern, with no expiry filtering —
expired entries still present in the map are included. -/
theorem keys_by_pattern_amended {α : Type} (s : CacheState α)
    (pattern k : String) :
    k ∈ CacheService.get_keys_by_pattern s pattern ↔
      k ∈ s.cache.map Prod.fst ∧ strStartsWith k pattern = true := by
  simp [CacheService.get_keys_by_pattern, List.mem_filter]

/-- C7: looking up a present entry. If its expiry has passed, `get` deletes
exactly that entry, returns `none`, and bumps the miss and eviction counters
by one each (hits untouched); if it has not, `get` returns the value, bumps
that entry's hit counter and the global hit counter (no deletion, other
counters untouched). -/
theorem cache_get_correct {α : Type} (s : CacheState α) (key : String)
    (now : ℚ) (e : CacheEntry α) (hl : lookupS s.cache key = some e) :
    (e.is_expired now = true →
        (CacheService.get s key now).1 = none ∧
        lookupS (CacheService.get s key now).2.cache key = none ∧
        (∀ k', k' ≠ key →
          lookupS (CacheService.get s key now).2.cache k' = lookupS s.cache k') ∧
        (CacheService.get s key now).2.misses = s.misses + 1 ∧
        (CacheService.get s key now).2.evictions = s.evictions + 1 ∧
        (CacheService.get s key now).2.hits = s.hits)
    ∧ (e.is_expired now = false →
        (CacheService.get s key now).1 = some e.value ∧
        lookupS (CacheService.get s key now).2.cache key =
          some { e with hits := e.hits + 1 } ∧
        (∀ k', k' ≠ key →
          lookupS (CacheService.get s key now).2.cache k' = lookupS s.cache k') ∧
        (CacheService.get s key now).2.hits = s.hits + 1 ∧
        (CacheService.get s key now).2.misses = s.misses ∧
        (CacheService.get s key now).2.evictions = s.evictions) := by
  constructor
  · intro hexp
    simp only [CacheService.get, hl, hexp, if_true]
    refine ⟨by trivial, ?_, ?_, by trivial, by trivial, by trivial⟩
    · rw [lookupS_eraseKey, if_pos rfl]
    · intro k' hk'
      rw [lookupS_eraseKey, if_neg hk']
  · intro hexp
    simp only [CacheService.get, hl, hexp, Bool.false_eq_true, if_false]
    refine ⟨by trivial, ?_, ?_, by trivial, by trivial, by trivial⟩
    · rw [lookupS_setEntry, if_pos rfl]
    · intro k' hk'
      rw [lookupS_setEntry, if_neg hk']

/-- Witness for C7: both branches of `cache_get_correct` evaluated on
`c7Cache` at time 5. -/
theorem cache_get_correct_witness :
    ((CacheService.get c7Cache "a" 5).1 = none ∧
      lookupS (CacheService.get c7Cache "a" 5).2.cache "a" = none ∧
      (∀ k', k' ≠ "a" →
        lookupS (CacheService.get c7Cache "a" 5).2.cache k'
          = lookupS c7Cache.cache k') ∧
      (CacheService.get c7Cache "a" 5).2.misses = 21 ∧
      (CacheService.get c7Cache "a" 5).2.evictions = 2 ∧
      (CacheService.get c7Cache "a" 5).2.hits = 10)
    ∧ ((CacheService.get c7Cache "b" 5).1 = some 2 ∧
      lookupS (CacheService.get c7Cache "b" 5).2.cache "b" =
        some { value := 2, expires_at := 9, created_at := 0, hits := 5 } ∧
      (∀ k', k' ≠ "b" →
        lookupS (CacheService.get c7Cache "b" 5).2.cache k'
          = lookupS c7Cache.cache k') ∧
      (CacheService.get c7Cache "b" 5).2.hits = 11 ∧
      (CacheService.get c7Cache "b" 5).2.misses = 20 ∧
      (CacheService.get c7Cache "b" 5).2.evictions = 1) := by
  constructor
  · have h := (cache_get_correct c7Cache "a" 5
      { value := 1, expires_at := 3, created_at := 0, hits := 0 } rfl).1
      (by decide)
    exact h
  · have h := (cache_get_correct c7Cache "b" 5
      { value := 2, expires_at := 9, created_at := 0, hits := 4 } (by decide)).2
      (by decide)
    exact h

/-- C3: the circuit breaker state machine.  (1) A fresh breaker is CLOSED;
(2) `failure_threshold` consecutive classified failures drive it to OPEN;
(3) an entry attempt while OPEN before `timeout` seconds have elapsed since
the recorded failure time is rejected with a 503 and the guarded body never
runs; (4) once `timeout` has elapsed (failure times are positive wall-clock
instants) the next entry moves the breaker to HALF_OPEN and is allowed;
(5) a success in HALF_OPEN yields CLOSED with `failure_count = 0`; (6) a
classified failure in any reachable HALF_OPEN state returns the breaker to
OPEN. -/
theorem circuit_breaker_state_machine (th : ℕ) (tmo : ℚ) :
    (CircuitBreaker.init th tmo).state = CBState.CLOSED
    ∧ (∀ ts : ℕ → ℚ, 1 ≤ th →
        (CircuitBreaker.iterFail ts th (CircuitBreaker.init th tmo)).state
          = CBState.OPEN)
    ∧ (∀ (cb : CircuitBreaker) (now t : ℚ), cb.state = CBState.OPEN →
        cb.last_failure_time = some t → now - t < cb.timeout →
        CircuitBreaker.aenter cb now = .error { status_code := 503 })
    ∧ (∀ (cb : CircuitBreaker) (now t : ℚ), cb.state = CBState.OPEN →
        cb.last_failure_time = some t → 0 < t → cb.timeout ≤ now - t →
        CircuitBreaker.aenter cb now
          = .ok { cb with state := CBState.HALF_OPEN })
    ∧ (∀ (cb : CircuitBreaker) (now : ℚ), cb.state = CBState.HALF_OPEN →
        (CircuitBreaker.aexit cb now none).1.state = CBState.CLOSED ∧
        (CircuitBreaker.aexit cb now none).1.failure_count = 0)
    ∧ (∀ (cb : CircuitBreaker) (now : ℚ), CircuitBreaker.Reach th tmo cb →
        cb.state = CBState.HALF_OPEN →
        (CircuitBreaker.aexit cb now (some true)).1.state = CBState.OPEN) := by
  refine ⟨rfl, ?_, ?_, ?_, ?_, ?_⟩
  · intro ts hth
    have hpre : (CircuitBreaker.init th tmo).state =
        (if (CircuitBreaker.init th tmo).failure_threshold ≤
            (CircuitBreaker.init th tmo).failure_count then CBState.OPEN
         else CBState.CLOSED) := by
      simp only [CircuitBreaker.init]
      rw [if_neg (by omega)]
    obtain ⟨h1, h2, h3⟩ :=
      CircuitBreaker.iterFail_run ts th (CircuitBreaker.init th tmo) hpre
    rw [h3]
    simp only [CircuitBreaker.init]
    rw [if_pos (by omega)]
  · intro cb now t hst hlft hlt
    simp only [CircuitBreaker.aenter, if_pos hst, hlft]
    rw [if_neg (fun hc => absurd hc.2 (not_le.mpr hlt))]
  · intro cb now t hst hlft hpos hle
    simp only [CircuitBreaker.aenter, if_pos hst, hlft]
    rw [if_pos ⟨hpos.ne', hle⟩]
  · intro cb now hst
    simp only [CircuitBreaker.aexit, if_pos hst]
    exact ⟨by trivial, by trivial⟩
  · intro cb now hr hst
    obtain ⟨hth, himp⟩ := CircuitBreaker.reach_inv hr
    obtain ⟨hcnt, t, hlft, hpost⟩ := himp (Or.inr hst)
    simp only [CircuitBreaker.aexit, if_true]
    rw [if_pos (by omega)]

/-- Witness for C3 with `failure_threshold = 1`, `timeout = 60`: one failure
at time 1 opens the breaker; entry at time 30 is rejected; entry at time 61
moves to HALF_OPEN; success there re-closes with count 0; a failure in the
reachable HALF_OPEN state re-opens. -/
theorem circuit_breaker_state_machine_witness :
    (CircuitBreaker.iterFail (fun _ => 1) 1 (CircuitBreaker.init 1 60)).state
      = CBState.OPEN
    ∧ CircuitBreaker.aenter
        { failure_threshold := 1, timeout := 60, failure_count := 1,
          last_failure_time := some 1, state := CBState.OPEN } 30
        = .error { status_code := 503 }
    ∧ CircuitBreaker.aenter
        { failure_threshold := 1, timeout := 60, failure_count := 1,
          last_failure_time := some 1, state := CBState.OPEN } 61
        = .ok { failure_threshold := 1, timeout := 60, failure_count := 1,
                last_failure_time := some 1, state := CBState.HALF_OPEN }
    ∧ (CircuitBreaker.aexit
        { failure_threshold := 1, timeout := 60, failure_count := 1,
          last_failure_time := some 1, state := CBState.HALF_OPEN } 70
          none).1.state = CBState.CLOSED
    ∧ (CircuitBreaker.aexit
        { failure_threshold := 1, timeout := 60, failure_count := 1,
          last_failure_time := some 1, state := CBState.HALF_OPEN } 70
          none).1.failure_count = 0
    ∧ (CircuitBreaker.aexit
        { failure_threshold := 1, timeout := 60, failure_count := 1,
          last_failure_time := some 1, state := CBState.HALF_OPEN } 70
          (some true)).1.state = CBState.OPEN := by
  have hopen : CircuitBreaker.Reach 1 60
      { failure_threshold := 1, timeout := 60, failure_count := 1,
        last_failure_time := some 1, state := CBState.OPEN } := by
    have h := CircuitBreaker.Reach.exit (CircuitBreaker.init 1 60) 1
      (some true) CircuitBreaker.Reach.init (by norm_num)
    exact h
  have hhalf : CircuitBreaker.Reach 1 60
      { failure_threshold := 1, timeout := 60, failure_count := 1,
        last_failure_time := some 1, state := CBState.HALF_OPEN } := by
    refine CircuitBreaker.Reach.enter _ _ 61 hopen ?_
    exact (circuit_breaker_state_machine 1 60).2.2.2.1 _ 61 1 rfl rfl
      (by norm_num) (by norm_num)
  refine ⟨?_, ?_, ?_, ?_, ?_, ?_⟩
  · exact (circuit_breaker_state_machine 1 60).2.1 (fun _ => 1) (by decide)
  · exact (circuit_breaker_state_machine 1 60).2.2.1 _ 30 1 rfl rfl
      (by norm_num)
  · exact (circuit_breaker_state_machine 1 60).2.2.2.1 _ 61 1 rfl rfl
      (by norm_num) (by norm_num)
  · exact ((circuit_breaker_state_machine 1 60).2.2.2.2.1 _ 70 rfl).1
  · exact ((circuit_breaker_state_machine 1 60).2.2.2.2.1 _ 70 rfl).2
  · exact (circuit_breaker_state_machine 1 60).2.2.2.2.2 _ 70 hhalf rfl

theorem dequeAppend_eq (cap : ℕ) (hcap : 0 < cap) (l : List ℚ) (x : ℚ) :
    dequeAppend cap l x = (l ++ [x]).drop (l.length + 1 - cap) := by
  unfold dequeAppend
  by_cases h : cap ≤ l.length
  · rw [if_pos h, List.drop_append_of_le_length (by omega)]
  · rw [if_neg h]
    have h0 : l.length + 1 - cap = 0 := by omega
    rw [h0, List.drop_zero]

theorem foldl_dequeAppend (cap : ℕ) (hcap : 0 < cap) (ds : List ℚ) :
    ∀ l : List ℚ, l.length ≤ cap →
      ds.foldl (dequeAppend cap) l = (l ++ ds).drop ((l ++ ds).length - cap) := by
  induction ds with
  | nil =>
      intro l hl
      simp only [List.foldl_nil, List.append_nil]
      have h0 : l.length - cap = 0 := by omega
      rw [h0, List.drop_zero]
  | cons d ds ih =>
      intro l hl
      simp only [List.foldl_cons]
      have hlen : (dequeAppend cap l d).length ≤ cap := by
        rw [dequeAppend_eq cap hcap l d]
        simp only [List.length_drop, List.length_append, List.length_singleton]
        omega
      rw [ih (dequeAppend cap l d) hlen, dequeAppend_eq cap hcap l d,
        ← List.drop_append_of_le_length
          (by simp only [List.length_append, List.length_singleton]; omega),
        List.drop_drop, List.append_cons]
      congr 1
      · simp only [List.length_append, List.length_drop, List.length_singleton,
          List.length_cons, List.length_nil]
        omega
      · simp

theorem foldl_record_response_times (ds : List ℚ) :
    ∀ m : MetricsState,
      (ds.foldl MetricsMiddleware.record_response_time m).response_times
        = ds.foldl (dequeAppend 1000) m.response_times := by
  induction ds with
  | nil => intro m; rfl
  | cons d ds ih =>
      intro m
      simp only [List.foldl_cons]
      rw [ih]
      rfl

/-- C8: after recording any sequence of durations from a fresh metrics
object, the recent-latency buffer is exactly the last (at most) 1000
durations in order — the oldest entries are the ones dropped — and the
reported `avg_response_time` is the arithmetic mean of the buffer's
contents, or 0 when nothing has been recorded. -/
theorem metrics_avg_correct (ds : List ℚ) :
    ((ds.foldl MetricsMiddleware.record_response_time
        MetricsMiddleware.init).response_times = ds.drop (ds.length - 1000))
    ∧ ((ds.foldl MetricsMiddleware.record_response_time
        MetricsMiddleware.init).response_times.length ≤ 1000)
    ∧ (MetricsMiddleware.avg_response_time
        (ds.foldl MetricsMiddleware.record_response_time MetricsMiddleware.init)
        = if ds = [] then 0
          else arithMean ((ds.foldl MetricsMiddleware.record_response_time
              MetricsMiddleware.init).response_times)) := by
  have h1 : (ds.foldl MetricsMiddleware.record_response_time
      MetricsMiddleware.init).response_times = ds.drop (ds.length - 1000) := by
    rw [foldl_record_response_times ds MetricsMiddleware.init]
    have := foldl_dequeAppend 1000 (by norm_num) ds
      (MetricsMiddleware.init.response_times) (by simp [MetricsMiddleware.init])
    simpa [MetricsMiddleware.init] using this
  refine ⟨h1, ?_, ?_⟩
  · rw [h1]
    simp only [List.length_drop]
    omega
  · by_cases hds : ds = []
    · subst hds
      simp [MetricsMiddleware.avg_response_time, MetricsMiddleware.init]
    · rw [if_neg hds]
      have hne : (ds.foldl MetricsMiddleware.record_response_time
          MetricsMiddleware.init).response_times ≠ [] := by
        rw [h1]
        intro hc
        rw [List.drop_eq_nil_iff] at hc
        have hpos : 0 < ds.length := List.length_pos.mpr hds
        omega
      simp only [MetricsMiddleware.avg_response_time, arithMean]
      rw [if_neg (by simpa [List.isEmpty_iff] using hne)]

/-- C1 counterexample: the middleware keeps one timestamp deque per client,
shared by all endpoint classes.  A request admitted under the auth class at
time 0 leaves the client's deque `[0]`; the same client's general-class
request at time 1 is then rejected, although from the untouched state it
would have been admitted — so an auth-class request does change the same
client's general-class window and admission decision. -/
theorem rate_limit_shared_window_counterexample :
    (RateLimitMiddleware.dispatch c1Settings [] "1.2.3.4"
        "/api/v1/security/login" 0).2 = [("1.2.3.4", [0])]
    ∧ (RateLimitMiddleware.dispatch c1Settings [("1.2.3.4", [0])] "1.2.3.4"
        "/api/v1/items" 1).1
      = RLDecision.rejected 429 100 [("Retry-After", "100")]
    ∧ (RateLimitMiddleware.dispatch c1Settings [] "1.2.3.4"
        "/api/v1/items" 1).1
      = RLDecision.admitted [("X-RateLimit-Limit", "1"),
          ("X-RateLimit-Remaining", "0"), ("X-RateLimit-Reset", "101")] := by
  have hen : c1Settings.RATE_LIMIT_ENABLED = true := rfl
  have hauth : RateLimitMiddleware.get_limit_for_endpoint c1Settings
      "/api/v1/security/login" = (5, 100) := by decide
  have hgen : RateLimitMiddleware.get_limit_for_endpoint c1Settings
      "/api/v1/items" = (1, 100) := by decide
  refine ⟨?_, ?_, ?_⟩
  · simp only [RateLimitMiddleware.dispatch, RateLimitMiddleware.handle_queue,
      hen, hauth, RateLimitMiddleware.purgeWindow, lookupS, setEntry]
    norm_num [pyInt, List.dropWhile]
  · simp only [RateLimitMiddleware.dispatch, RateLimitMiddleware.handle_queue,
      hen, hgen, RateLimitMiddleware.purgeWindow, lookupS]
    norm_num [pyInt, List.dropWhile]
    decide
  · simp only [RateLimitMiddleware.dispatch, RateLimitMiddleware.handle_queue,
      hen, hgen, RateLimitMiddleware.purgeWindow, lookupS]
    norm_num [pyInt, List.dropWhile]
    decide

theorem dispatch_congr (st : Settings) (s1 s2 : RLState) (ip path : String)
    (now : ℚ) (hq : lookupS s1 ip = lookupS s2 ip) :
    (RateLimitMiddleware.dispatch st s1 ip path now).1
      = (RateLimitMiddleware.dispatch st s2 ip path now).1 := by
  by_cases hen : st.RATE_LIMIT_ENABLED = false
  · simp only [RateLimitMiddleware.dispatch, if_pos hen]
  · simp only [RateLimitMiddleware.dispatch, if_neg hen, hq]

/-- C1 amended: the rate limiter's windows are keyed by client identity
only, not by (client, endpoint class): a request from one client leaves
every **other** client's stored window unchanged and does not alter any
other client's admission decisions, but requests of the same client share
one window across all endpoint classes. -/
theorem rate_limiter_per_client_isolation (st : Settings) (s : RLState)
    (ip path : String) (now : ℚ) (ip' path' : String) (now' : ℚ)
    (h : ip' ≠ ip) :
    lookupS (RateLimitMiddleware.dispatch st s ip path now).2 ip'
        = lookupS s ip'
    ∧ (RateLimitMiddleware.dispatch st
          (RateLimitMiddleware.dispatch st s ip path now).2 ip' path' now').1
        = (RateLimitMiddleware.dispatch st s ip' path' now').1 := by
  have hframe : lookupS (RateLimitMiddleware.dispatch st s ip path now).2 ip'
      = lookupS s ip' := by
    by_cases hen : st.RATE_LIMIT_ENABLED = false
    · simp only [RateLimitMiddleware.dispatch, if_pos hen]
    · simp only [RateLimitMiddleware.dispatch, if_neg hen]
      rw [lookupS_setEntry, if_neg h]
  exact ⟨hframe, dispatch_congr st _ s ip' path' now' hframe⟩

/-- Witness for the C1 amended theorem: client `"5.6.7.8"`'s window and
decision are untouched by a request from client `"1.2.3.4"`. -/
theorem rate_limiter_per_client_isolation_witness :
    lookupS (RateLimitMiddleware.dispatch c1Settings [("5.6.7.8", [2])]
        "1.2.3.4" "/api/v1/items" 3).2 "5.6.7.8"
      = lookupS [("5.6.7.8", [2])] "5.6.7.8"
    ∧ (RateLimitMiddleware.dispatch c1Settings
        (RateLimitMiddleware.dispatch c1Settings [("5.6.7.8", [2])]
          "1.2.3.4" "/api/v1/items" 3).2 "5.6.7.8" "/api/v1/items" 4).1
      = (RateLimitMiddleware.dispatch c1Settings [("5.6.7.8", [2])]
          "5.6.7.8" "/api/v1/items" 4).1 :=
  rate_limiter_per_client_isolation c1Settings [("5.6.7.8", [2])]
    "1.2.3.4" "/api/v1/items" 3 "5.6.7.8" "/api/v1/items" 4 (by decide)

/-- C4 counterexample: a rejected (429) response carries only a
`Retry-After` header — none of the limit / remaining / reset metadata the
claim requires on every response path. -/
theorem rate_limit_headers_counterexample :
    (RateLimitMiddleware.dispatch c4Settings [("9.9.9.9", [5])] "9.9.9.9"
        "/api/v1/items" 6).1
      = RLDecision.rejected 429 100 [("Retry-After", "100")]
    ∧ lookupS (RLDecision.rejected 429 100 [("Retry-After", "100")]).headers
        "X-RateLimit-Limit" = none
    ∧ lookupS (RLDecision.rejected 429 100 [("Retry-After", "100")]).headers
        "X-RateLimit-Remaining" = none
    ∧ lookupS (RLDecision.rejected 429 100 [("Retry-After", "100")]).headers
        "X-RateLimit-Reset" = none := by
  have hen : c4Settings.RATE_LIMIT_ENABLED = true := rfl
  have hgen : RateLimitMiddleware.get_limit_for_endpoint c4Settings
      "/api/v1/items" = (1, 100) := by decide
  refine ⟨?_, by decide, by decide, by decide⟩
  simp only [RateLimitMiddleware.dispatch, RateLimitMiddleware.handle_queue,
    hen, hgen, RateLimitMiddleware.purgeWindow, lookupS]
  norm_num [pyInt, List.dropWhile]
  decide

/-- C4 amended: the limit / remaining / reset metadata — with
`remaining = max(0, maxRequests - currentCount)` — is attached only on the
**admitted** path; the rejected path carries only a `Retry-After` header and
none of the three metadata entries. -/
theorem rate_limit_headers_amended (st : Settings) (s : RLState)
    (ip path : String) (now : ℚ) (hen : st.RATE_LIMIT_ENABLED = true) :
    (∀ hs, (RateLimitMiddleware.dispatch st s ip path now).1
        = RLDecision.admitted hs →
      hs = [("X-RateLimit-Limit",
              toString (RateLimitMiddleware.get_limit_for_endpoint st path).1),
            ("X-RateLimit-Remaining",
              toString (max 0
                (((RateLimitMiddleware.get_limit_for_endpoint st path).1 : ℤ)
                  - ((RateLimitMiddleware.purgeWindow
                      (RateLimitMiddleware.get_limit_for_endpoint st path).2
                      now ((lookupS s ip).getD [])).length + 1)))),
            ("X-RateLimit-Reset",
              toString (pyInt
                (now + (RateLimitMiddleware.get_limit_for_endpoint st
                  path).2)))])
    ∧ (∀ code ra hs, (RateLimitMiddleware.dispatch st s ip path now).1
        = RLDecision.rejected code ra hs →
      code = 429 ∧ hs = [("Retry-After", toString ra)] ∧
      lookupS hs "X-RateLimit-Limit" = none ∧
      lookupS hs "X-RateLimit-Remaining" = none ∧
      lookupS hs "X-RateLimit-Reset" = none) := by
  have hen' : ¬ st.RATE_LIMIT_ENABLED = false := by
    rw [hen]
    simp
  constructor
  · intro hs heq
    simp only [RateLimitMiddleware.dispatch, if_neg hen',
      RateLimitMiddleware.handle_queue] at heq
    by_cases hc : (RateLimitMiddleware.get_limit_for_endpoint st path).1 ≤
        (RateLimitMiddleware.purgeWindow
          (RateLimitMiddleware.get_limit_for_endpoint st path).2 now
          ((lookupS s ip).getD [])).length
    · rw [if_pos hc] at heq
      simp at heq
    · rw [if_neg hc] at heq
      injection heq with h'
      rw [← h']
      simp only [List.length_append, List.length_singleton, Nat.cast_add,
        Nat.cast_one]
  · intro code ra hs heq
    simp only [RateLimitMiddleware.dispatch, if_neg hen',
      RateLimitMiddleware.handle_queue] at heq
    by_cases hc : (RateLimitMiddleware.get_limit_for_endpoint st path).1 ≤
        (RateLimitMiddleware.purgeWindow
          (RateLimitMiddleware.get_limit_for_endpoint st path).2 now
          ((lookupS s ip).getD [])).length
    · rw [if_pos hc] at heq
      injection heq with h1 h2 h3
      subst h1
      subst h2
      subst h3
      refine ⟨rfl, rfl, ?_, ?_, ?_⟩ <;>
        · simp only [lookupS]
          rw [if_neg (by decide)]
    · rw [if_neg hc] at heq
      simp at heq

/-- Witness for the C4 amended theorem, rejected branch, at concrete
inputs. -/
theorem rate_limit_headers_amended_witness :
    (429 : ℕ) = 429 ∧
    [("Retry-After", "100")] = [("Retry-After", toString (100 : ℤ))] ∧
    lookupS [("Retry-After", "100")] "X-RateLimit-Limit" = none ∧
    lookupS [("Retry-After", "100")] "X-RateLimit-Remaining" = none ∧
    lookupS [("Retry-After", "100")] "X-RateLimit-Reset" = none :=
  (rate_limit_headers_amended c4Settings [("9.9.9.9", [5])] "9.9.9.9"
    "/api/v1/items" 6 rfl).2 429 100 [("Retry-After", "100")]
    rate_limit_headers_counterexample.1

/-- C6 counterexample: with the oldest surviving timestamp 0, window 10 and
`now = 10`, the quantity `oldest + window - now` is the integer 0, whose
ceiling is 0 — but the code (`int(...) + 1`) returns `retry_after = 1`. -/
theorem retry_after_counterexample :
    (RateLimitMiddleware.dispatch c6Settings [("1.2.3.4", [0])] "1.2.3.4"
        "/api/v1/items" 10).1
      = RLDecision.rejected 429 1 [("Retry-After", "1")]
    ∧ (⌈(0 : ℚ) + 10 - 10⌉ : ℤ) = 0 := by
  have hen : c6Settings.RATE_LIMIT_ENABLED = true := rfl
  have hgen : RateLimitMiddleware.get_limit_for_endpoint c6Settings
      "/api/v1/items" = (1, 10) := by decide
  refine ⟨?_, by norm_num⟩
  simp only [RateLimitMiddleware.dispatch, RateLimitMiddleware.handle_queue,
    hen, hgen, RateLimitMiddleware.purgeWindow, lookupS]
  norm_num [pyInt, List.dropWhile]
  decide

/-- C6 amended: when the purged window still holds at least `maxRequests`
timestamps, the request is rejected with
`retryAfterSeconds = floor(oldestRemainingTimestamp + windowSeconds - now) + 1`
(the purge guarantees the floored quantity is nonnegative, so Python's
`int()` truncation is the floor; this equals the claimed ceiling whenever
the quantity is not an integer, and exceeds it by one when it is). -/
theorem retry_after_amended (st : Settings) (s : RLState) (ip path : String)
    (now t : ℚ) (rest : List ℚ) (hen : st.RATE_LIMIT_ENABLED = true)
    (hq : RateLimitMiddleware.purgeWindow
        (RateLimitMiddleware.get_limit_for_endpoint st path).2 now
        ((lookupS s ip).getD []) = t :: rest)
    (hmax : (RateLimitMiddleware.get_limit_for_endpoint st path).1
        ≤ (t :: rest).length) :
    0 ≤ t + (RateLimitMiddleware.get_limit_for_endpoint st path).2 - now
    ∧ (RateLimitMiddleware.dispatch st s ip path now).1
      = RLDecision.rejected 429
          (⌊t + (RateLimitMiddleware.get_limit_for_endpoint st path).2
              - now⌋ + 1)
          [("Retry-After",
            toString (⌊t + (RateLimitMiddleware.get_limit_for_endpoint st
                path).2 - now⌋ + 1))] := by
  have hen' : ¬ st.RATE_LIMIT_ENABLED = false := by
    rw [hen]
    simp
  have hq' : ((lookupS s ip).getD []).dropWhile
      (fun u => decide (u < now -
        (RateLimitMiddleware.get_limit_for_endpoint st path).2)) = t :: rest :=
    hq
  have hhead := dropWhile_head_false _ _ _ _ hq'
  have hge : 0 ≤ t +
      (RateLimitMiddleware.get_limit_for_endpoint st path).2 - now := by
    have hnot := of_decide_eq_false hhead
    have h2 := not_lt.mp hnot
    linarith
  have hpy : pyInt (t +
        (RateLimitMiddleware.get_limit_for_endpoint st path).2 - now)
      = ⌊t + (RateLimitMiddleware.get_limit_for_endpoint st path).2 - now⌋ := by
    rw [pyInt, if_pos hge]
  refine ⟨hge, ?_⟩
  simp only [RateLimitMiddleware.dispatch, if_neg hen',
    RateLimitMiddleware.handle_queue, hq, if_pos hmax, List.headD_cons]
  rw [hpy]

/-- Witness for the C6 amended theorem: oldest timestamp 3, window 10,
`now = 15/2`, so `floor(3 + 10 - 15/2) + 1 = 6`. -/
theorem retry_after_amended_witness :
    (0 : ℚ) ≤ 3 + 10 - 15/2
    ∧ (RateLimitMiddleware.dispatch c6Settings [("1.2.3.4", [3])] "1.2.3.4"
        "/api/v1/items" (15/2)).1
      = RLDecision.rejected 429 6 [("Retry-After", "6")] := by
  have hlim : RateLimitMiddleware.get_limit_for_endpoint c6Settings
      "/api/v1/items" = (1, 10) := by decide
  have h := retry_after_amended c6Settings [("1.2.3.4", [3])] "1.2.3.4"
    "/api/v1/items" (15/2) 3 [] rfl
    (by rw [hlim]; norm_num [RateLimitMiddleware.purgeWindow, lookupS,
      List.dropWhile])
    (by rw [hlim]; simp)
  refine ⟨by norm_num, ?_⟩
  rw [h.2, hlim]
  norm_num
  decide
